import Mathlib

/-!
Verification of the nemostore listing-analysis pipeline (`app.py`).

The pipeline under verification:
* `convert_to_won` (app.py 22-29): null-tolerant currency normalization,
  `int(val) * 10000` with `None`/NaN mapped to `0`.
* `load_data` (app.py 31-61): per-listing enrichment adding the four
  normalized amount columns, `total_investment`, `roi` and
  `payback_period`; the two ratio columns use pandas
  `.replace(0, float('nan'))` on their denominator, so a zero denominator
  yields the NaN sentinel instead of raising.
* the filter mask (app.py 102-109): five predicates combined with `&`,
  membership via `.isin`, ranges via `.between` (inclusive on both ends),
  all on raw columns; a NaN raw value fails `.between` for every range.
* the KPI aggregation (app.py 120-134): pandas `Series.mean`, which skips
  undefined entries and returns the NaN sentinel on an empty eligible set.
* `format_won` (app.py 115-118): `"{v/100000000:.1f}억"` for
  `v >= 100000000`, else `"{v/10000:,.0f}만"`; NaN fails the comparison
  and renders as `"nan만"`.

Numbers are embedded as `ℚ` (pandas floats / Python ints), nullable cells
as `Option ℚ` with `none` for `None`/NaN, and the NaN sentinel of the
derived ratio metrics as the `none` of an `Option ℚ`.
-/

namespace NemoStore

/-- Python `int()` applied to a rational: truncation toward zero.
`int(q)` drops the fractional part, so it is `sign(q) * (|num| / den)`
with natural-number (floor) division on the absolute value. -/
def pyTrunc (q : ℚ) : ℤ :=
  q.num.sign * ((q.num.natAbs / q.den : ℕ) : ℤ)

/-- Function `convert_to_won` (app.py 22-29): `None`/NaN becomes `0`, any other
value becomes `int(val) * 10000`. -/
def convert_to_won (val : Option ℚ) : ℤ :=
  match val with
  | none => 0
  | some v => pyTrunc v * 10000

/-- One raw listing record as loaded from `data['items']` (app.py 39):
string identity fields plus the nullable numeric fields. -/
structure RawListing where
  title : String
  businessLargeCodeName : String
  businessMiddleCodeName : String
  floor : String
  nearSubwayStation : String
  deposit : Option ℚ
  monthlyRent : Option ℚ
  premium : Option ℚ
  maintenanceFee : Option ℚ
  size : Option ℚ
  areaPrice : Option ℚ
deriving DecidableEq

/-- One enriched row of the dataframe produced by `load_data`
(app.py 42-56): the raw record plus the derived columns.  The ratio
columns are `Option ℚ`, `none` standing for the NaN sentinel that
`.replace(0, float('nan'))` feeds into the division. -/
structure Listing where
  raw : RawListing
  deposit_won : ℤ
  monthlyRent_won : ℤ
  premium_won : ℤ
  maintenanceFee_won : ℤ
  total_investment : ℤ
  roi : Option ℚ
  payback_period : Option ℚ
deriving DecidableEq

/-- The enrichment step of `load_data` (app.py 42-56), column by column:
won-normalizations, `total_investment = deposit_won + premium_won`,
`roi = (monthlyRent_won * 12 / total_investment.replace(0, nan)) * 100`,
`payback_period = total_investment / (monthlyRent_won * 12).replace(0, nan)`.
A division whose denominator was replaced by NaN yields `none`. -/
def enrich (r : RawListing) : Listing :=
  { raw := r
    deposit_won := convert_to_won r.deposit
    monthlyRent_won := convert_to_won r.monthlyRent
    premium_won := convert_to_won r.premium
    maintenanceFee_won := convert_to_won r.maintenanceFee
    total_investment := convert_to_won r.deposit + convert_to_won r.premium
    roi :=
      if convert_to_won r.deposit + convert_to_won r.premium = 0 then none
      else some ((convert_to_won r.monthlyRent : ℚ) * 12 /
        ((convert_to_won r.deposit + convert_to_won r.premium : ℤ) : ℚ) * 100)
    payback_period :=
      if convert_to_won r.monthlyRent * 12 = 0 then none
      else some (((convert_to_won r.deposit + convert_to_won r.premium : ℤ) : ℚ) /
        ((convert_to_won r.monthlyRent : ℚ) * 12)) }

/-- The end-to-end example listing of the specification:
deposit 1000, monthlyRent 50, premium 2000, size 30 (raw units). -/
def specListing : RawListing :=
  { title := "t"
    businessLargeCodeName := "b"
    businessMiddleCodeName := "m"
    floor := "1"
    nearSubwayStation := "s"
    deposit := some 1000
    monthlyRent := some 50
    premium := some 2000
    maintenanceFee := some 10
    size := some 30
    areaPrice := some 300 }

/-- The sidebar filter state (app.py 79-100): the two multiselect
inclusion sets and the three slider ranges. -/
structure Criteria where
  businessTypes : List String
  floors : List String
  rentLo : ℚ
  rentHi : ℚ
  depositLo : ℚ
  depositHi : ℚ
  sizeLo : ℚ
  sizeHi : ℚ

/-- pandas `Series.between(lo, hi)` on one nullable cell: inclusive on
both ends, and `false` on a NaN/null cell (NaN comparisons are false). -/
def between (v : Option ℚ) (lo hi : ℚ) : Bool :=
  match v with
  | none => false
  | some x => decide (lo ≤ x) && decide (x ≤ hi)

/-- The row mask of app.py 103-109: the five filter predicates combined
with `&`, membership and ranges taken on the raw columns
(`businessLargeCodeName`, `floor`, `monthlyRent`, `deposit`, `size`). -/
def listingPred (c : Criteria) (l : Listing) : Bool :=
  c.businessTypes.contains l.raw.businessLargeCodeName
    && c.floors.contains l.raw.floor
    && between l.raw.monthlyRent c.rentLo c.rentHi
    && between l.raw.deposit c.depositLo c.depositHi
    && between l.raw.size c.sizeLo c.sizeHi

/-- Filtering `filtered_df = df[mask]` (app.py 103-109): keep, in order, the rows
satisfying the mask. -/
def applyFilter (ls : List Listing) (c : Criteria) : List Listing :=
  ls.filter (listingPred c)

/-- Relation `Wider c1 c2`: every criterion of `c2` is at least as permissive as
the corresponding criterion of `c1` (supersets for the two membership
sets, containing intervals for the three ranges). -/
def Wider (c1 c2 : Criteria) : Prop :=
  (∀ s, s ∈ c1.businessTypes → s ∈ c2.businessTypes) ∧
  (∀ s, s ∈ c1.floors → s ∈ c2.floors) ∧
  c2.rentLo ≤ c1.rentLo ∧ c1.rentHi ≤ c2.rentHi ∧
  c2.depositLo ≤ c1.depositLo ∧ c1.depositHi ≤ c2.depositHi ∧
  c2.sizeLo ≤ c1.sizeLo ∧ c1.sizeHi ≤ c2.sizeHi

/-- A wide sample criteria set matching `specListing`. -/
def wideCriteria : Criteria :=
  { businessTypes := ["b"]
    floors := ["1"]
    rentLo := 0
    rentHi := 100
    depositLo := 0
    depositHi := 5000
    sizeLo := 0
    sizeHi := 100 }

/-- A narrower sample criteria set, still matching `specListing`. -/
def narrowCriteria : Criteria :=
  { businessTypes := ["b"]
    floors := ["1"]
    rentLo := 10
    rentHi := 60
    depositLo := 500
    depositHi := 2000
    sizeLo := 20
    sizeHi := 40 }

/-- The example listing with a null raw monthly rent. -/
def nullRentListing : RawListing :=
  { specListing with monthlyRent := none }

/-- The numeric columns of the enriched frame that the dashboard
aggregates (app.py 120-134) together with the two ratio columns; each is
read as a nullable cell. -/
inductive Field where
  | monthlyRentWon
  | depositWon
  | premiumWon
  | areaPrice
  | maintenanceFeeWon
  | roi
  | paybackPeriod
deriving DecidableEq

/-- The cell of one enriched row in the given column: the four won
columns are always-defined integers, `areaPrice` is the raw nullable
column, and the two ratio columns carry the NaN sentinel as `none`. -/
def getField : Field → Listing → Option ℚ
  | Field.monthlyRentWon, l => some (l.monthlyRent_won : ℚ)
  | Field.depositWon, l => some (l.deposit_won : ℚ)
  | Field.premiumWon, l => some (l.premium_won : ℚ)
  | Field.areaPrice, l => l.raw.areaPrice
  | Field.maintenanceFeeWon, l => some (l.maintenanceFee_won : ℚ)
  | Field.roi, l => l.roi
  | Field.paybackPeriod, l => l.payback_period

/-- pandas `Series.mean()`: the arithmetic mean of the defined cells of
the column, NaN (`none`) when no cell is defined — in particular on an
empty frame; it never raises. -/
def seriesMean (xs : List (Option ℚ)) : Option ℚ :=
  if (xs.filterMap id).isEmpty then none
  else some ((xs.filterMap id).sum / ((xs.filterMap id).length : ℚ))

/-- One KPI of app.py 120-134: the mean of one column of the filtered
frame. -/
def aggregateField (ls : List Listing) (f : Field) : Option ℚ :=
  seriesMean (ls.map (getField f))

/-- The KPI summary row: one mean per requested column. -/
def summarize (ls : List Listing) (fs : List Field) : List (Field × Option ℚ) :=
  fs.map fun f => (f, aggregateField ls f)

/-- One decimal digit as a character. -/
def digitChar : ℕ → Char
  | 0 => '0'
  | 1 => '1'
  | 2 => '2'
  | 3 => '3'
  | 4 => '4'
  | 5 => '5'
  | 6 => '6'
  | 7 => '7'
  | 8 => '8'
  | 9 => '9'
  | _ => '0'

/-- Decimal digits of a natural number, least significant first;
fuel-structured recursion so the kernel can evaluate it. -/
def natDigitsRevAux : ℕ → ℕ → List Char
  | 0, _ => []
  | fuel + 1, n =>
    if n < 10 then [digitChar n]
    else digitChar (n % 10) :: natDigitsRevAux fuel (n / 10)

/-- Decimal digits of a natural number, least significant first. -/
def natDigitsRev (n : ℕ) : List Char :=
  natDigitsRevAux (n + 1) n

/-- Thousands separators: on a least-significant-first digit list, a
comma goes in after every three digits. -/
def commaRev : List Char → List Char
  | [] => []
  | [a] => [a]
  | [a, b] => [a, b]
  | [a, b, c] => [a, b, c]
  | a :: b :: c :: d :: rest => a :: b :: c :: ',' :: commaRev (d :: rest)

/-- Decimal rendering of a natural number with thousands separators. -/
def commaGroup (n : ℕ) : List Char :=
  (commaRev (natDigitsRev n)).reverse

/-- Round half to even, the rounding used by Python float formatting. -/
def roundHE (q : ℚ) : ℤ :=
  if Int.fract q < 1/2 then ⌊q⌋
  else if 1/2 < Int.fract q then ⌊q⌋ + 1
  else if ⌊q⌋ % 2 = 0 then ⌊q⌋ else ⌊q⌋ + 1

/-- Python `f"{q:,.0f}"`: round half to even to an integer and render it
with thousands separators, keeping the sign of a negative input. -/
def fmtComma0 (q : ℚ) : List Char :=
  (if q < 0 then ['-'] else []) ++ commaGroup (roundHE q).natAbs

/-- Python `f"{q:.1f}"`: round to one decimal place (half to even) and
render as integer part, decimal point, one digit. -/
def fmtFixed1 (q : ℚ) : List Char :=
  (if q < 0 then ['-'] else []) ++
    (natDigitsRev ((roundHE (q * 10)).natAbs / 10)).reverse ++
    ['.', digitChar ((roundHE (q * 10)).natAbs % 10)]

/-- Function `format_won` (app.py 115-118) on a nullable value: a defined value
`v ≥ 100000000` renders as `f"{v/100000000:.1f}억"`, any other defined
value as `f"{v/10000:,.0f}만"`.  The NaN sentinel fails the `>=`
comparison and the division propagates NaN, which Python renders as
`"nan"`, so the result is the fixed string `"nan만"`. -/
def format_won (val : Option ℚ) : String :=
  match val with
  | none => "nan만"
  | some v =>
    if 100000000 ≤ v then String.mk (fmtFixed1 (v / 100000000) ++ ['억'])
    else String.mk (fmtComma0 (v / 10000) ++ ['만'])

end NemoStore

namespace NemoStore

/-- Truncation `pyTrunc` agrees with the floor on non-negative rationals. -/
theorem pyTrunc_eq_floor_of_nonneg (q : ℚ) (h : 0 ≤ q) : pyTrunc q = ⌊q⌋ := by
  unfold pyTrunc
  rw [Rat.floor_def]
  have hnum : 0 ≤ q.num := Rat.num_nonneg.mpr h
  rcases lt_or_eq_of_le hnum with hpos | hzero
  · rw [Int.sign_eq_one_of_pos hpos, one_mul, Int.natCast_div]
    congr 1
    exact Int.natAbs_of_nonneg hnum
  · rw [← hzero]
    simp

/-- Truncation `pyTrunc` is the identity on integers. -/
theorem pyTrunc_intCast (z : ℤ) : pyTrunc (z : ℚ) = z := by
  unfold pyTrunc
  rw [Rat.num_intCast, Rat.den_intCast, Nat.div_one]
  exact Int.sign_mul_natAbs z

/-- Unfolding of `between` into the existence of an in-range value. -/
theorem between_iff (v : Option ℚ) (lo hi : ℚ) :
    between v lo hi = true ↔ ∃ x, v = some x ∧ lo ≤ x ∧ x ≤ hi := by
  cases v <;> simp [between]

/-- Unfolding of the row mask into its five conjuncts. -/
theorem listingPred_iff (c : Criteria) (l : Listing) :
    listingPred c l = true ↔
      l.raw.businessLargeCodeName ∈ c.businessTypes ∧
      l.raw.floor ∈ c.floors ∧
      (∃ x, l.raw.monthlyRent = some x ∧ c.rentLo ≤ x ∧ x ≤ c.rentHi) ∧
      (∃ x, l.raw.deposit = some x ∧ c.depositLo ≤ x ∧ x ≤ c.depositHi) ∧
      (∃ x, l.raw.size = some x ∧ c.sizeLo ≤ x ∧ x ≤ c.sizeHi) := by
  simp [listingPred, Bool.and_eq_true, List.elem_iff, between_iff, and_assoc]

/-- C9: for every enriched listing, `total_investment` equals
`deposit_won + premium_won` (app.py 49). -/
theorem total_investment_eq_deposit_plus_premium (r : RawListing) :
    (enrich r).total_investment = (enrich r).deposit_won + (enrich r).premium_won := rfl

/-- C1: `roi` is `none` (the NaN sentinel) iff `total_investment = 0`, and
whenever `total_investment ≠ 0` it equals
`monthlyRent_won * 12 / total_investment * 100` (app.py 53). -/
theorem roi_undefined_iff_total_investment_zero (r : RawListing) :
    ((enrich r).roi = none ↔ (enrich r).total_investment = 0) ∧
    ((enrich r).total_investment ≠ 0 →
      (enrich r).roi = some (((enrich r).monthlyRent_won : ℚ) * 12 /
        ((enrich r).total_investment : ℚ) * 100)) := by
  have h : (enrich r).roi =
      if (enrich r).total_investment = 0 then none
      else some (((enrich r).monthlyRent_won : ℚ) * 12 /
        ((enrich r).total_investment : ℚ) * 100) := rfl
  rw [h]
  constructor
  · constructor
    · intro h0
      by_contra hne
      simp [hne] at h0
    · intro h0
      simp [h0]
  · intro hne
    simp [hne]

/-- C1 witness: on the specification's example listing the total
investment is nonzero and the `roi` formula applies. -/
theorem roi_undefined_iff_total_investment_zero_witness :
    (enrich specListing).total_investment ≠ 0 ∧
    (enrich specListing).roi = some (((enrich specListing).monthlyRent_won : ℚ) * 12 /
      ((enrich specListing).total_investment : ℚ) * 100) :=
  ⟨by decide, (roi_undefined_iff_total_investment_zero specListing).2 (by decide)⟩

/-- C2: `payback_period` is `none` (the NaN sentinel) iff
`monthlyRent_won = 0`, and whenever `monthlyRent_won ≠ 0` it equals
`total_investment / (monthlyRent_won * 12)` (app.py 56). -/
theorem payback_undefined_iff_rent_zero (r : RawListing) :
    ((enrich r).payback_period = none ↔ (enrich r).monthlyRent_won = 0) ∧
    ((enrich r).monthlyRent_won ≠ 0 →
      (enrich r).payback_period = some (((enrich r).total_investment : ℚ) /
        (((enrich r).monthlyRent_won : ℚ) * 12))) := by
  have h : (enrich r).payback_period =
      if (enrich r).monthlyRent_won * 12 = 0 then none
      else some (((enrich r).total_investment : ℚ) /
        (((enrich r).monthlyRent_won : ℚ) * 12)) := rfl
  have h12 : (enrich r).monthlyRent_won * 12 = 0 ↔ (enrich r).monthlyRent_won = 0 := by
    constructor
    · intro hh
      rcases mul_eq_zero.mp hh with hh | hh
      · exact hh
      · omega
    · intro hh
      rw [hh, zero_mul]
  rw [h]
  constructor
  · constructor
    · intro h0
      by_contra hne
      rw [if_neg (fun hc => hne (h12.mp hc))] at h0
      exact Option.some_ne_none _ h0
    · intro h0
      simp [h12.mpr h0]
  · intro hne
    rw [if_neg (fun hc => hne (h12.mp hc))]

/-- C2 witness: on the specification's example listing the monthly rent
is nonzero and the `payback_period` formula applies. -/
theorem payback_undefined_iff_rent_zero_witness :
    (enrich specListing).monthlyRent_won ≠ 0 ∧
    (enrich specListing).payback_period = some (((enrich specListing).total_investment : ℚ) /
      (((enrich specListing).monthlyRent_won : ℚ) * 12)) :=
  ⟨by decide, (payback_undefined_iff_rent_zero specListing).2 (by decide)⟩

/-- C3 counterexample: on the non-integer input `-1/2` the code returns
`int(-1/2) * 10000 = 0` (truncation toward zero), not
`floor(-1/2) * 10000 = -10000` as the claim states. -/
theorem convert_to_won_not_floor_times_10000 :
    convert_to_won (some (-(1 : ℚ)/2)) = 0 ∧
    ⌊(-(1 : ℚ)/2)⌋ * 10000 = -10000 ∧
    convert_to_won (some (-(1 : ℚ)/2)) ≠ ⌊(-(1 : ℚ)/2)⌋ * 10000 := by
  refine ⟨?_, ?_, ?_⟩ <;> norm_num [convert_to_won, pyTrunc]

/-- C3 amended: `convert_to_won` maps null to `0` and any value `v` to
`trunc(v) * 10000` (truncation toward zero, Python `int()`); truncation
coincides with the floor on non-negative inputs, the result is always an
integer, and every integer `z` maps to `z * 10000`. -/
theorem convert_to_won_trunc_spec (v : ℚ) (z : ℤ) :
    convert_to_won none = 0 ∧
    convert_to_won (some v) = pyTrunc v * 10000 ∧
    (0 ≤ v → convert_to_won (some v) = ⌊v⌋ * 10000) ∧
    convert_to_won (some (z : ℚ)) = z * 10000 := by
  refine ⟨rfl, rfl, ?_, ?_⟩
  · intro h
    show pyTrunc v * 10000 = ⌊v⌋ * 10000
    rw [pyTrunc_eq_floor_of_nonneg v h]
  · show pyTrunc (z : ℚ) * 10000 = z * 10000
    rw [pyTrunc_intCast]

/-- C3 witness: the normalization evaluated on the concrete raw amounts
`45000` (floor case applies) and the integer `3`. -/
theorem convert_to_won_trunc_spec_witness :
    0 ≤ (45000 : ℚ) ∧
    convert_to_won (some (45000 : ℚ)) = ⌊(45000 : ℚ)⌋ * 10000 ∧
    convert_to_won (some ((3 : ℤ) : ℚ)) = 3 * 10000 :=
  ⟨by decide, (convert_to_won_trunc_spec 45000 3).2.2.1 (by decide),
    (convert_to_won_trunc_spec 45000 3).2.2.2⟩

/-- C4: the filter keeps order (sublist of the input), a listing is in
the output exactly when it is in the input and satisfies all five
predicates on raw fields (membership sets and inclusive ranges), and the
empty input yields the empty output rather than an error. -/
theorem applyFilter_exact (ls : List Listing) (c : Criteria) (l : Listing) :
    (applyFilter ls c).Sublist ls ∧
    (l ∈ applyFilter ls c ↔ l ∈ ls ∧
      l.raw.businessLargeCodeName ∈ c.businessTypes ∧
      l.raw.floor ∈ c.floors ∧
      (∃ x, l.raw.monthlyRent = some x ∧ c.rentLo ≤ x ∧ x ≤ c.rentHi) ∧
      (∃ x, l.raw.deposit = some x ∧ c.depositLo ≤ x ∧ x ≤ c.depositHi) ∧
      (∃ x, l.raw.size = some x ∧ c.sizeLo ≤ x ∧ x ≤ c.sizeHi)) ∧
    applyFilter [] c = [] := by
  refine ⟨List.filter_sublist ls, ?_, rfl⟩
  rw [applyFilter, List.mem_filter, listingPred_iff]

/-- C4 witness: the example listing passes the wide criteria and is kept
by the filter. -/
theorem applyFilter_exact_witness :
    enrich specListing ∈ applyFilter [enrich specListing] wideCriteria :=
  (applyFilter_exact [enrich specListing] wideCriteria (enrich specListing)).2.1.mpr
    ⟨List.mem_singleton_self _, by decide, by decide,
      ⟨50, rfl, by decide, by decide⟩, ⟨1000, rfl, by decide, by decide⟩,
      ⟨30, rfl, by decide, by decide⟩⟩

/-- C5: filter monotonicity — componentwise widening the criteria can
only enlarge the filtered set. -/
theorem applyFilter_monotone (ls : List Listing) (c1 c2 : Criteria) (h : Wider c1 c2) :
    ∀ l ∈ applyFilter ls c1, l ∈ applyFilter ls c2 := by
  intro l hl
  rw [applyFilter, List.mem_filter] at hl ⊢
  obtain ⟨hmem, hp⟩ := hl
  refine ⟨hmem, ?_⟩
  rw [listingPred_iff] at hp ⊢
  obtain ⟨hb, hf, ⟨x, hx, h1, h2⟩, ⟨y, hy, h3, h4⟩, ⟨z, hz, h5, h6⟩⟩ := hp
  obtain ⟨wb, wf, wr1, wr2, wd1, wd2, ws1, ws2⟩ := h
  exact ⟨wb _ hb, wf _ hf,
    ⟨x, hx, le_trans wr1 h1, le_trans h2 wr2⟩,
    ⟨y, hy, le_trans wd1 h3, le_trans h4 wd2⟩,
    ⟨z, hz, le_trans ws1 h5, le_trans h6 ws2⟩⟩

/-- C5 witness: the example listing kept by the narrow criteria is kept
by the wide criteria. -/
theorem applyFilter_monotone_witness :
    enrich specListing ∈ applyFilter [enrich specListing] wideCriteria :=
  applyFilter_monotone [enrich specListing] narrowCriteria wideCriteria
    ⟨fun _ hs => hs, fun _ hs => hs,
      by decide, by decide, by decide, by decide, by decide, by decide⟩
    (enrich specListing)
    (List.mem_filter.mpr ⟨List.mem_singleton_self _,
      (listingPred_iff narrowCriteria (enrich specListing)).mpr
        ⟨by decide, by decide, ⟨50, rfl, by decide, by decide⟩,
          ⟨1000, rfl, by decide, by decide⟩, ⟨30, rfl, by decide, by decide⟩⟩⟩)

/-- C10: a listing whose raw `monthlyRent` (resp. `deposit`, `size`) is
null is excluded by the filter under every criteria set, even though the
normalization maps the null rent (resp. deposit) to a zero won amount. -/
theorem null_raw_field_excluded (r : RawListing) (ls : List Listing) (c : Criteria) :
    (r.monthlyRent = none →
      (enrich r).monthlyRent_won = 0 ∧ enrich r ∉ applyFilter ls c) ∧
    (r.deposit = none →
      (enrich r).deposit_won = 0 ∧ enrich r ∉ applyFilter ls c) ∧
    (r.size = none → enrich r ∉ applyFilter ls c) := by
  have hraw : (enrich r).raw = r := rfl
  refine ⟨fun h => ⟨?_, ?_⟩, fun h => ⟨?_, ?_⟩, fun h => ?_⟩
  · show convert_to_won r.monthlyRent = 0
    rw [h]
    rfl
  · intro hmem
    have hp := (List.mem_filter.mp hmem).2
    simp [listingPred, hraw, h, between] at hp
  · show convert_to_won r.deposit = 0
    rw [h]
    rfl
  · intro hmem
    have hp := (List.mem_filter.mp hmem).2
    simp [listingPred, hraw, h, between] at hp
  · intro hmem
    have hp := (List.mem_filter.mp hmem).2
    simp [listingPred, hraw, h, between] at hp

/-- C10 witness: the null-rent example listing has a zero won rent and is
rejected by the wide criteria even though they include rent `0`. -/
theorem null_raw_field_excluded_witness :
    (enrich nullRentListing).monthlyRent_won = 0 ∧
    enrich nullRentListing ∉ applyFilter [enrich nullRentListing] wideCriteria :=
  (null_raw_field_excluded nullRentListing [enrich nullRentListing] wideCriteria).1 rfl

/-- C6: the aggregator never fails — on an empty frame every mean is the
NaN sentinel, a mean is the sentinel exactly when no cell of the column
is defined, and otherwise it is the arithmetic mean over the defined
cells only (undefined cells are skipped, not counted as zero). -/
theorem aggregate_mean_spec (ls : List Listing) (f : Field) (fs : List Field) :
    aggregateField [] f = none ∧
    (aggregateField ls f = none ↔ (ls.map (getField f)).filterMap id = []) ∧
    ((ls.map (getField f)).filterMap id ≠ [] →
      aggregateField ls f =
        some (((ls.map (getField f)).filterMap id).sum /
          (((ls.map (getField f)).filterMap id).length : ℚ))) ∧
    (∀ p ∈ summarize ([] : List Listing) fs, p.2 = none) := by
  refine ⟨rfl, ?_, ?_, ?_⟩
  · rw [aggregateField, seriesMean]
    by_cases hE : (ls.map (getField f)).filterMap id = []
    · simp [hE]
    · simp [hE, List.isEmpty_iff]
  · intro hne
    rw [aggregateField, seriesMean, if_neg (fun hE => hne (List.isEmpty_iff.mp hE))]
  · intro p hp
    rw [summarize] at hp
    obtain ⟨g, _, rfl⟩ := List.mem_map.mp hp
    rfl

/-- C6 witness: on the one-listing frame the rent mean is defined and
equals the mean of the defined cells. -/
theorem aggregate_mean_spec_witness :
    ([enrich specListing].map (getField Field.monthlyRentWon)).filterMap id ≠ [] ∧
    aggregateField [enrich specListing] Field.monthlyRentWon =
      some ((([enrich specListing].map (getField Field.monthlyRentWon)).filterMap id).sum /
        ((([enrich specListing].map (getField Field.monthlyRentWon)).filterMap id).length : ℚ)) :=
  ⟨by simp [getField],
    (aggregate_mean_spec [enrich specListing] Field.monthlyRentWon []).2.2.1
      (by simp [getField])⟩

/-- Every character produced by `digitChar` is a decimal digit, so its
code point is at most 57. -/
theorem digitChar_val_le (d : ℕ) : (digitChar d).val ≤ 57 := by
  unfold digitChar
  split <;> decide

/-- Every character produced by `natDigitsRevAux` is a decimal digit. -/
theorem mem_natDigitsRevAux (fuel : ℕ) :
    ∀ n c, c ∈ natDigitsRevAux fuel n → c.val ≤ 57 := by
  induction fuel with
  | zero =>
    intro n c hc
    simp [natDigitsRevAux] at hc
  | succ fuel ih =>
    intro n c hc
    rw [natDigitsRevAux] at hc
    by_cases h : n < 10
    · rw [if_pos h] at hc
      simp at hc
      rw [hc]
      exact digitChar_val_le n
    · rw [if_neg h] at hc
      rcases List.mem_cons.mp hc with h2 | h2
      · rw [h2]
        exact digitChar_val_le (n % 10)
      · exact ih (n / 10) c h2

/-- Grouping `commaRev` only adds comma characters. -/
theorem mem_commaRev (l : List Char) : ∀ c ∈ commaRev l, c ∈ l ∨ c = ',' := by
  induction l using commaRev.induct with
  | case1 => simp [commaRev]
  | case2 a => simp [commaRev]
  | case3 a b => simp [commaRev]
  | case4 a b c => simp [commaRev]
  | case5 a b c d rest ih =>
    intro x hx
    simp only [commaRev, List.mem_cons] at hx
    rcases hx with h | h | h | h | h
    · exact Or.inl (by simp [h])
    · exact Or.inl (by simp [h])
    · exact Or.inl (by simp [h])
    · exact Or.inr h
    · rcases ih x h with h2 | h2
      · refine Or.inl ?_
        simp only [List.mem_cons] at h2 ⊢
        tauto
      · exact Or.inr h2

/-- Every character of a comma-grouped number has code point at most 57
(digits and the comma). -/
theorem mem_commaGroup (n : ℕ) : ∀ c ∈ commaGroup n, c.val ≤ 57 := by
  intro c hc
  rw [commaGroup, List.mem_reverse] at hc
  rcases mem_commaRev _ c hc with h | h
  · rw [natDigitsRev] at h
    exact mem_natDigitsRevAux _ _ c h
  · rw [h]
    decide

/-- Every character of `f"{q:,.0f}"` has code point at most 57. -/
theorem mem_fmtComma0 (q : ℚ) : ∀ c ∈ fmtComma0 q, c.val ≤ 57 := by
  intro c hc
  rw [fmtComma0, List.mem_append] at hc
  rcases hc with h | h
  · split at h
    · simp at h
      rw [h]
      decide
    · simp at h
  · exact mem_commaGroup _ c h

/-- Every character of `f"{q:.1f}"` has code point at most 57. -/
theorem mem_fmtFixed1 (q : ℚ) : ∀ c ∈ fmtFixed1 q, c.val ≤ 57 := by
  intro c hc
  rw [fmtFixed1, List.append_assoc, List.mem_append] at hc
  rcases hc with h | h
  · split at h
    · simp at h
      rw [h]
      decide
    · simp at h
  · rw [List.mem_append] at h
    rcases h with h | h
    · rw [List.mem_reverse, natDigitsRev] at h
      exact mem_natDigitsRevAux _ _ c h
    · rcases List.mem_cons.mp h with h2 | h2
      · rw [h2]
        decide
      · simp at h2
        rw [h2]
        exact digitChar_val_le _


/-- Rounding `roundHE` is the identity on integers. -/
theorem roundHE_intCast (z : ℤ) : roundHE (z : ℚ) = z := by
  rw [roundHE, Int.fract_intCast, Int.floor_intCast]
  norm_num

/-- A formatted defined value never collides with the `"nan만"` rendering
of the sentinel: its leading characters are digits, signs or separators
(code points at most 57) while `'n'` has code point 110. -/
theorem format_some_ne_nan (v : ℚ) : format_won (some v) ≠ "nan만" := by
  intro h
  rw [format_won] at h
  split at h
  · have hd : fmtFixed1 (v / 100000000) ++ ['억'] = ("nan만" : String).data :=
      congrArg String.data h
    have hn : 'n' ∈ fmtFixed1 (v / 100000000) ++ ['억'] := by
      rw [hd]
      decide
    rcases List.mem_append.mp hn with h1 | h1
    · exact absurd (mem_fmtFixed1 _ _ h1) (by decide)
    · exact absurd h1 (by decide)
  · have hd : fmtComma0 (v / 10000) ++ ['만'] = ("nan만" : String).data :=
      congrArg String.data h
    have hn : 'n' ∈ fmtComma0 (v / 10000) ++ ['만'] := by
      rw [hd]
      decide
    rcases List.mem_append.mp hn with h1 | h1
    · exact absurd (mem_fmtComma0 _ _ h1) (by decide)
    · exact absurd h1 (by decide)

/-- C7: the sentinel renders as the fixed string `"nan만"`, which is not
the numeric-looking placeholder `"0만"` and differs from the rendering of
every defined value. -/
theorem format_undefined_distinct (v : ℚ) :
    format_won none = "nan만" ∧
    format_won none ≠ "0만" ∧
    format_won (some v) ≠ format_won none :=
  ⟨rfl, by decide, format_some_ne_nan v⟩

/-- C7 witness: the rendering of the defined value `0` differs from the
rendering of the sentinel. -/
theorem format_undefined_distinct_witness :
    format_won (some 0) ≠ format_won none :=
  (format_undefined_distinct 0).2.2

/-- Concrete evaluation: `f"{3/2:.1f}"` is `"1.5"`. -/
theorem fmtFixed1_three_halves : fmtFixed1 (3/2 : ℚ) = ['1', '.', '5'] := by
  have h10 : (3/2 : ℚ) * 10 = ((15 : ℤ) : ℚ) := by norm_num
  have hr : roundHE ((3/2 : ℚ) * 10) = 15 := by rw [h10, roundHE_intCast]
  rw [fmtFixed1, hr, if_neg (by norm_num : ¬ (3/2 : ℚ) < 0)]
  decide

/-- Concrete evaluation: `f"{500:,.0f}"` is `"500"`. -/
theorem fmtComma0_five_hundred : fmtComma0 (500 : ℚ) = ['5', '0', '0'] := by
  have hr : roundHE (500 : ℚ) = 500 := by
    rw [show (500 : ℚ) = ((500 : ℤ) : ℚ) by norm_num, roundHE_intCast]
  rw [fmtComma0, hr, if_neg (by norm_num : ¬ (500 : ℚ) < 0)]
  decide

/-- C8: monetary rendering — `150000000` renders as `"1.5억"`, `5000000`
as `"500만"`, and in general a defined value of at least `100000000`
renders through `f"{v/100000000:.1f}억"` while any smaller one renders
through `f"{v/10000:,.0f}만"`; being a function of the value, the
rendering is deterministic. -/
theorem format_amount_spec (v : ℚ) :
    format_won (some 150000000) = "1.5억" ∧
    format_won (some 5000000) = "500만" ∧
    ((100000000 : ℚ) ≤ v →
      format_won (some v) = String.mk (fmtFixed1 (v / 100000000) ++ ['억'])) ∧
    (¬ (100000000 : ℚ) ≤ v →
      format_won (some v) = String.mk (fmtComma0 (v / 10000) ++ ['만'])) := by
  refine ⟨?_, ?_, ?_, ?_⟩
  · show (if (100000000 : ℚ) ≤ 150000000
        then String.mk (fmtFixed1 ((150000000 : ℚ) / 100000000) ++ ['억'])
        else String.mk (fmtComma0 ((150000000 : ℚ) / 10000) ++ ['만'])) = "1.5억"
    rw [if_pos (by norm_num : (100000000 : ℚ) ≤ 150000000)]
    rw [show (150000000 : ℚ) / 100000000 = 3/2 by norm_num, fmtFixed1_three_halves]
    decide
  · show (if (100000000 : ℚ) ≤ 5000000
        then String.mk (fmtFixed1 ((5000000 : ℚ) / 100000000) ++ ['억'])
        else String.mk (fmtComma0 ((5000000 : ℚ) / 10000) ++ ['만'])) = "500만"
    rw [if_neg (by norm_num : ¬ (100000000 : ℚ) ≤ 5000000)]
    rw [show (5000000 : ℚ) / 10000 = 500 by norm_num, fmtComma0_five_hundred]
    decide
  · intro h
    show (if (100000000 : ℚ) ≤ v
        then String.mk (fmtFixed1 (v / 100000000) ++ ['억'])
        else String.mk (fmtComma0 (v / 10000) ++ ['만'])) = _
    rw [if_pos h]
  · intro h
    show (if (100000000 : ℚ) ≤ v
        then String.mk (fmtFixed1 (v / 100000000) ++ ['억'])
        else String.mk (fmtComma0 (v / 10000) ++ ['만'])) = _
    rw [if_neg h]

/-- C8 witness: at the threshold value `100000000` the 억-branch formula
applies. -/
theorem format_amount_spec_witness :
    (100000000 : ℚ) ≤ 100000000 ∧
    format_won (some (100000000 : ℚ)) =
      String.mk (fmtFixed1 ((100000000 : ℚ) / 100000000) ++ ['억']) :=
  ⟨le_refl _, (format_amount_spec 100000000).2.2.1 (le_refl _)⟩

end NemoStore
